import Mathlib

/-
  Shallow embedding of modules/video_output/libplacebo/display.c
  (libplacebo video output module).

  The GPU backend (libplacebo) and the VLC core are external collaborators;
  their calls are modelled as oracle outcomes in environment records, and
  the sequence of calls a function performs is recorded as an event trace.
  All integer arithmetic of the source is over C `int`, modelled as `Int`
  (no value in this file approaches overflow range).
-/

namespace VlcPlacebo

/-! ## Geometry: pl_rect2d helpers (libplacebo) and VLC placement -/

/-- `struct pl_rect2d` — an integer rectangle. -/
structure Rect2D where
  x0 : Int
  y0 : Int
  x1 : Int
  y1 : Int
deriving Repr, DecidableEq

/-- `pl_rect2d_normalize`: min/max-correct a rectangle so that x0 ≤ x1 and
y0 ≤ y1 (libplacebo helper used at display.c:409). -/
def pl_rect2d_normalize (r : Rect2D) : Rect2D :=
  { x0 := min r.x0 r.x1, y0 := min r.y0 r.y1,
    x1 := max r.x0 r.x1, y1 := max r.y0 r.y1 }

/-- `pl_rect2d_eq`: component-wise equality of two rectangles. -/
def pl_rect2d_eq (a b : Rect2D) : Bool :=
  a.x0 == b.x0 && a.y0 == b.y0 && a.x1 == b.x1 && a.y1 == b.y1

/-- `vout_display_place_t` — the computed placement rectangle
(x, y, width, height). -/
structure Place where
  x : Int
  y : Int
  width : Int
  height : Int
deriving Repr, DecidableEq

/-- The flip adjustment of display.c:287-290: when the swapchain delivers
flipped frames, mirror the placement y and negate the height. `fbH` is the
framebuffer height `frame.fbo->params.h`. -/
def adjustPlace (flipped : Bool) (fbH : Int) (p : Place) : Place :=
  if flipped then { p with y := fbH - p.y, height := -p.height } else p

/-- The clear decision of display.c:406-413: build the placement rectangle,
normalize it, and compare with the full framebuffer rectangle; clear when
they differ. -/
def clearNeeded (place : Place) (fbW fbH : Int) : Bool :=
  let full : Rect2D := ⟨0, 0, fbW, fbH⟩
  let norm := pl_rect2d_normalize
    ⟨place.x, place.y, place.x + place.width, place.y + place.height⟩
  ! pl_rect2d_eq norm full

/-- Spec-side notion (written from the spec words, for comparison with the
code's `clearNeeded`): the placement rectangle, min/max corrected, exactly
covers the full target surface. -/
def coversExactly (place : Place) (fbW fbH : Int) : Prop :=
  min place.x (place.x + place.width) = 0 ∧
  max place.x (place.x + place.width) = fbW ∧
  min place.y (place.y + place.height) = 0 ∧
  max place.y (place.y + place.height) = fbH

instance (place : Place) (fbW fbH : Int) : Decidable (coversExactly place fbW fbH) := by
  unfold coversExactly; infer_instance

/-! ## Bit encoding: the dither-depth override (display.c:343-349) -/

/-- `struct pl_bit_encoding` (libplacebo): sample depth, color depth and
bit shift of the target representation. -/
structure BitEncoding where
  sample_depth : Int
  color_depth : Int
  bit_shift : Int
deriving Repr, DecidableEq

/-- display.c:343-349: when `sys->dither_depth > 0`, compute
`float scale = bits->color_depth / bits->sample_depth` (a C `int / int`
division, truncating toward zero, converted to float afterwards), then set
`sample_depth = dither_depth` and `color_depth = scale * dither_depth`.
The float products are exact at these magnitudes, so the result is the
truncating integer quotient times the new depth. -/
def mergeDitherDepth (bits : BitEncoding) (dither_depth : Int) : BitEncoding :=
  if dither_depth > 0 then
    let scale := bits.color_depth.tdiv bits.sample_depth
    { bits with sample_depth := dither_depth, color_depth := scale * dither_depth }
  else bits

/-! ## Resource loaders: LoadCustomLUT / LoadUserShader (display.c:503-596) -/

/-- Cached loader state: `sys->lut` / `sys->lut_path` (resp. `sys->hook` /
`sys->hook_path`). Resources are abstract ids; `none` is the NULL pointer. -/
structure LoaderState where
  res : Option Nat
  path : Option String
deriving Repr, DecidableEq

/-- Oracle outcomes for the file-system and parser calls a loader makes. -/
structure FileEnv where
  openOk : Bool
  seekOk : Bool
  tellOk : Bool
  allocOk : Bool
  readOk : Bool
  parseResult : Option Nat
deriving Repr

/-- One observable step of a loader run. `fseek`'s argument records whether
the FILE handle was NULL at the seek call. -/
inductive LoadStep where
  | clearResource
  | setPath (p : String)
  | fopen (ok : Bool)
  | fseek (handleNull : Bool)
  | ftell
  | allocBuf (ok : Bool)
  | freadBuf
  | parseBuf
  | freeBuf
  | fclose
deriving Repr, DecidableEq

/-- `LoadCustomLUT` (display.c:503-549). An empty/NULL path frees the LUT
and returns (the path is left as is). A path equal to the cached one is a
no-op. Otherwise the cached path is replaced up front (display.c:516-517),
the file is opened — with a NULL check (display.c:520) — read fully, and
parsed; `sys->lut` is overwritten by the parse result (display.c:536), and
every failure jumps to the error label which frees the read buffer and
closes the file. -/
def LoadCustomLUT (sys : LoaderState) (env : FileEnv) (filepath : Option String) :
    LoaderState × List LoadStep :=
  match filepath with
  | none => ({ sys with res := none }, [.clearResource])
  | some fp =>
    if fp = "" then ({ sys with res := none }, [.clearResource])
    else if sys.path = some fp then (sys, [])
    else
      let sys1 := { sys with path := some fp }
      if !env.openOk then
        (sys1, [.setPath fp, .fopen false])
      else if !env.seekOk then
        (sys1, [.setPath fp, .fopen true, .fseek false, .fclose])
      else if !env.tellOk then
        (sys1, [.setPath fp, .fopen true, .fseek false, .ftell, .fclose])
      else if !env.allocOk then
        (sys1, [.setPath fp, .fopen true, .fseek false, .ftell, .allocBuf false, .fclose])
      else if !env.readOk then
        (sys1, [.setPath fp, .fopen true, .fseek false, .ftell, .allocBuf true,
                .freadBuf, .freeBuf, .fclose])
      else
        let sys2 := { sys1 with res := env.parseResult }
        match env.parseResult with
        | none =>
          (sys2, [.setPath fp, .fopen true, .fseek false, .ftell, .allocBuf true,
                  .freadBuf, .parseBuf, .freeBuf, .fclose])
        | some _ =>
          (sys2, [.setPath fp, .fopen true, .fseek false, .ftell, .allocBuf true,
                  .freadBuf, .parseBuf, .fclose, .freeBuf])

/-- `LoadUserShader` (display.c:552-596). Identical structure to
`LoadCustomLUT` except that after `vlc_fopen` there is no NULL check
(display.c:568-569): `fseek` is called on the possibly-NULL handle, so the
seek step records `handleNull = !openOk`, and the error label's
`if (fs) fclose(fs)` only closes when the open succeeded. -/
def LoadUserShader (sys : LoaderState) (env : FileEnv) (filepath : Option String) :
    LoaderState × List LoadStep :=
  match filepath with
  | none => ({ sys with res := none }, [.clearResource])
  | some fp =>
    if fp = "" then ({ sys with res := none }, [.clearResource])
    else if sys.path = some fp then (sys, [])
    else
      let sys1 := { sys with path := some fp }
      let hn := !env.openOk
      let closeEv : List LoadStep := if env.openOk then [.fclose] else []
      if !env.seekOk then
        (sys1, [.setPath fp, .fopen env.openOk, .fseek hn] ++ closeEv)
      else if !env.tellOk then
        (sys1, [.setPath fp, .fopen env.openOk, .fseek hn, .ftell] ++ closeEv)
      else if !env.allocOk then
        (sys1, [.setPath fp, .fopen env.openOk, .fseek hn, .ftell, .allocBuf false] ++ closeEv)
      else if !env.readOk then
        (sys1, [.setPath fp, .fopen env.openOk, .fseek hn, .ftell, .allocBuf true,
                .freadBuf, .freeBuf] ++ closeEv)
      else
        let sys2 := { sys1 with res := env.parseResult }
        match env.parseResult with
        | none =>
          (sys2, [.setPath fp, .fopen env.openOk, .fseek hn, .ftell, .allocBuf true,
                  .freadBuf, .parseBuf, .freeBuf] ++ closeEv)
        | some _ =>
          (sys2, [.setPath fp, .fopen env.openOk, .fseek hn, .ftell, .allocBuf true,
                  .freadBuf, .parseBuf] ++ closeEv ++ [.freeBuf])

/-! ## Frame compositor: PictureRender (display.c:217-444) and Open -/

/-- One subpicture region of the linked list: its placement geometry
(`i_x`, `i_y`, visible width/height) and an id for its image data. -/
structure RegionGeom where
  i_x : Int
  i_y : Int
  w : Int
  h : Int
deriving Repr, DecidableEq

structure Region where
  geom : RegionGeom
  dataId : Nat
deriving Repr, DecidableEq

/-- The per-region overlay rectangle of display.c:381-388:
`ysign = frame.flipped ? -1 : 1`, x from `place.x + i_x`, y from
`place.y + i_y * ysign` and `place.y + (i_y + h) * ysign`. -/
def overlayRect (place : Place) (flipped : Bool) (g : RegionGeom) : Rect2D :=
  let ysign : Int := if flipped then -1 else 1
  { x0 := place.x + g.i_x
    y0 := place.y + g.i_y * ysign
    x1 := place.x + g.i_x + g.w
    y1 := place.y + (g.i_y + g.h) * ysign }

/-- The overlay descriptor stored in `sys->overlays[i]`: its rectangle and
the id of the image data uploaded into its plane. -/
structure OverlayDesc where
  rect : Rect2D
  dataId : Nat
deriving Repr, DecidableEq

/-- The persistent overlay pool of `vout_display_sys_t`: capacity
(`num_overlays`), texture slots (`overlay_tex`, `none` = NULL pointer) and
descriptor storage (`overlays`, `none` = uninitialized slot). -/
structure OverlayPool where
  cap : Nat
  tex : List (Option Nat)
  desc : List (Option OverlayDesc)
deriving Repr, DecidableEq

/-- The realloc of display.c:357-369 when `num_regions > sys->num_overlays`:
old contents are preserved, the new texture slots are cleared to NULL, and
the capacity becomes the requested count. New descriptor slots are
uninitialized (`none`). -/
def growPool (pool : OverlayPool) (n : Nat) : OverlayPool :=
  { cap := n
    tex := pool.tex ++ List.replicate (n - pool.cap) none
    desc := pool.desc ++ List.replicate (n - pool.cap) none }

/-- Observable events of the display callbacks. -/
inductive Ev where
  | makeCurrent (ok : Bool)
  | releaseCurrent
  | startFrame (ok : Bool)
  | uploadPlane (i : Nat) (ok : Bool)
  | reallocOverlays (n : Nat) (ok : Bool)
  | uploadRegion (i : Nat) (dataId : Nat) (ok : Bool)
  | clearBlack
  | clearRed
  | renderDispatch (ok : Bool)
  | submitFrame (ok : Bool)
  | reportSubmitError
deriving Repr, DecidableEq

/-- The image-plane upload loop of display.c:257-269: upload planes in
order, stop at the first failure with `failed = true` (`goto done`). -/
def uploadPlanes (ok : Nat → Bool) : Nat → Nat → Bool × List Ev
  | _, 0 => (false, [])
  | i, k+1 =>
    if ok i then
      ((uploadPlanes ok (i+1) k).1, .uploadPlane i true :: (uploadPlanes ok (i+1) k).2)
    else
      (true, [.uploadPlane i false])

/-- Result of the region upload loop: the final region count
(`num_regions`, cut to the failing index on a failed upload), the updated
texture slots and descriptor storage, and the events. -/
structure RegionUploadOut where
  cnt : Nat
  tex : List (Option Nat)
  desc : List (Option OverlayDesc)
  events : List Ev
deriving Repr, DecidableEq

/-- The region upload loop of display.c:372-399. The source initializes
`subpicture_region_t *r = subpicture->p_region` and iterates `i` up to
`num_regions`, but never advances `r` to `r->p_next` inside the loop, so
every iteration reads the first region of the list; the parameter `r`
below is therefore passed unchanged through the recursion. `overlays[i]`
is written before the upload; on upload failure the loop stops with
`num_regions = i`. -/
def uploadRegions (flipped : Bool) (place : Place) (ok : Nat → Bool) (r : List Region) :
    Nat → Nat → List (Option Nat) → List (Option OverlayDesc) → RegionUploadOut
  | i, 0, tex, desc => ⟨i, tex, desc, []⟩
  | i, k+1, tex, desc =>
    match r with
    | [] => ⟨i, tex, desc, []⟩
    | reg :: _ =>
      if ok i then
        let out := uploadRegions flipped place ok r (i+1) k
          (tex.set i (some reg.dataId))
          (desc.set i (some ⟨overlayRect place flipped reg.geom, reg.dataId⟩))
        ⟨out.cnt, out.tex, out.desc, .uploadRegion i reg.dataId true :: out.events⟩
      else
        ⟨i, tex, desc.set i (some ⟨overlayRect place flipped reg.geom, reg.dataId⟩),
          [.uploadRegion i reg.dataId false]⟩

/-- Oracle outcomes and frame inputs for one PictureRender call. -/
structure RenderEnv where
  makeCurrentOk : Bool
  startFrameOk : Bool
  flipped : Bool
  fbW : Int
  fbH : Int
  numPlanes : Nat
  planeUploadOk : Nat → Bool
  subpic : Option (List Region)
  reallocOk : Bool
  regionUploadOk : Nat → Bool
  renderOk : Bool
  submitOk : Bool
  place : Place

/-- Result of one PictureRender call: the updated overlay pool, the `failed`
flag, the composited overlay count and prefix (`target.num_overlays`,
`target.overlays`), and the event trace. -/
structure RenderOut where
  pool : OverlayPool
  failed : Bool
  targetNum : Nat
  targetDesc : List (Option OverlayDesc)
  events : List Ev

/-- The `done:` tail of display.c:435-443: clear to opaque red when
`failed`, always attempt `pl_swapchain_submit_frame`, report (only) a
submission failure, then release the context. -/
def finishFrame (body : List Ev) (failed submitOk : Bool) : List Ev :=
  body ++ (if failed then [.clearRed] else [])
       ++ [.submitFrame submitOk]
       ++ (if submitOk then [] else [.reportSubmitError])
       ++ [.releaseCurrent]

/-- The subpicture tail of PictureRender: region uploads with the current
pool storage, the clear-if-partial check, and the render dispatch. -/
def subpicTail (env : RenderEnv) (planesEv reallocEv : List Ev) (pool1 : OverlayPool)
    (regs : List Region) (n : Nat) (place : Place) : RenderOut :=
  let ru := uploadRegions env.flipped place env.regionUploadOk regs 0 n pool1.tex pool1.desc
  let clr : List Ev := if clearNeeded place env.fbW env.fbH then [.clearBlack] else []
  { pool := ⟨pool1.cap, ru.tex, ru.desc⟩
    failed := !env.renderOk
    targetNum := ru.cnt
    targetDesc := ru.desc.take ru.cnt
    events := [.makeCurrent true, .startFrame true] ++
      finishFrame (planesEv ++ reallocEv ++ ru.events ++ clr ++ [.renderDispatch env.renderOk])
        (!env.renderOk) env.submitOk }

/-- `PictureRender` (display.c:217-444). Control flow: MakeCurrent (early
return on failure), start a swapchain frame (release and return on
failure), upload the planes (failure jumps to `done`), compute the flip
adjusted placement, process the optional subpicture (growing the pool;
OOM sets `num_overlays = 0` and jumps to `done`; a region upload failure
only truncates the composited prefix), clear-if-partial, dispatch the
render (failure jumps to `done`), then the `done:` tail. -/
def PictureRender (pool : OverlayPool) (env : RenderEnv) : RenderOut :=
  if !env.makeCurrentOk then
    ⟨pool, false, 0, [], [.makeCurrent false]⟩
  else if !env.startFrameOk then
    ⟨pool, false, 0, [], [.makeCurrent true, .startFrame false, .releaseCurrent]⟩
  else
    let pr := uploadPlanes env.planeUploadOk 0 env.numPlanes
    if pr.1 then
      ⟨pool, true, 0, [],
        [.makeCurrent true, .startFrame true] ++ finishFrame pr.2 true env.submitOk⟩
    else
      let place := adjustPlace env.flipped env.fbH env.place
      match env.subpic with
      | none =>
        let clr : List Ev := if clearNeeded place env.fbW env.fbH then [.clearBlack] else []
        ⟨pool, !env.renderOk, 0, [],
          [.makeCurrent true, .startFrame true] ++
            finishFrame (pr.2 ++ clr ++ [.renderDispatch env.renderOk])
              (!env.renderOk) env.submitOk⟩
      | some regs =>
        let n := regs.length
        if n > pool.cap then
          if env.reallocOk then
            subpicTail env pr.2 [.reallocOverlays n true] (growPool pool n) regs n place
          else
            ⟨⟨0, [], []⟩, true, 0, [],
              [.makeCurrent true, .startFrame true] ++
                finishFrame (pr.2 ++ [.reallocOverlays n false]) true env.submitOk⟩
        else
          subpicTail env pr.2 [] pool regs n place

/-- Oracle outcomes for one `Open` call (display.c:107-185). -/
structure OpenEnv where
  windowOk : Bool
  createOk : Bool
  makeCurrentOk : Bool
  rendererOk : Bool
deriving Repr

/-- `Open` (display.c:107-185), context-handling skeleton. After a
successful `vlc_placebo_MakeCurrent` (line 127), a failure of
`pl_renderer_create` (lines 131-133) jumps to the `error:` label
(lines 180-184), which destroys the renderer and releases the backend but
performs no `vlc_placebo_ReleaseCurrent`; only the success path
(line 135) releases the current context. Returns (success?, trace). -/
def Open (env : OpenEnv) : Bool × List Ev :=
  if !env.windowOk then (false, [])
  else if !env.createOk then (false, [])
  else if !env.makeCurrentOk then (false, [.makeCurrent false])
  else if !env.rendererOk then (false, [.makeCurrent true])
  else (true, [.makeCurrent true, .releaseCurrent])

/-! ## Auxiliary counters, predicates and concrete environments -/

/-- Count the loader steps satisfying a predicate. -/
def countStep (f : LoadStep → Bool) : List LoadStep → Nat
  | [] => 0
  | s :: rest => (if f s then 1 else 0) + countStep f rest

/-- A successful read-buffer allocation. -/
def isAllocSuccess : LoadStep → Bool
  | .allocBuf true => true
  | _ => false

/-- A read-buffer free. -/
def isFreeBufStep : LoadStep → Bool
  | .freeBuf => true
  | _ => false

/-- Count the render events satisfying a predicate. -/
def countEv (f : Ev → Bool) : List Ev → Nat
  | [] => 0
  | e :: es => (if f e then 1 else 0) + countEv f es

/-- A frame submission attempt. -/
def isSubmitEv : Ev → Bool
  | .submitFrame _ => true
  | _ => false

/-- The subpicture processing of a frame does not hit the unlikely
out-of-memory branch: either no subpicture, or the region count fits the
current capacity, or the reallocation succeeds. -/
def subpicNoOOM (env : RenderEnv) (pool : OverlayPool) : Bool :=
  match env.subpic with
  | none => true
  | some regs => decide (regs.length ≤ pool.cap) || env.reallocOk

/-- Concrete frame: two distinct subpicture regions, every oracle succeeding. -/
def twoRegionEnv : RenderEnv :=
  { makeCurrentOk := true, startFrameOk := true, flipped := false,
    fbW := 100, fbH := 100, numPlanes := 1, planeUploadOk := fun _ => true,
    subpic := some [⟨⟨1, 2, 3, 4⟩, 100⟩, ⟨⟨5, 6, 7, 8⟩, 200⟩], reallocOk := true,
    regionUploadOk := fun _ => true, renderOk := true, submitOk := true,
    place := ⟨0, 0, 100, 100⟩ }

/-- Concrete frame requesting `k` overlay regions, every oracle succeeding. -/
def kRegionEnv (k : Nat) : RenderEnv :=
  { makeCurrentOk := true, startFrameOk := true, flipped := false,
    fbW := 10, fbH := 10, numPlanes := 1, planeUploadOk := fun _ => true,
    subpic := some (List.replicate k ⟨⟨0, 0, 1, 1⟩, 0⟩), reallocOk := true,
    regionUploadOk := fun _ => true, renderOk := true, submitOk := true,
    place := ⟨0, 0, 10, 10⟩ }

/-- Concrete frame whose render dispatch and submission both fail. -/
def dispatchFailEnv : RenderEnv :=
  { makeCurrentOk := true, startFrameOk := true, flipped := false,
    fbW := 100, fbH := 100, numPlanes := 1, planeUploadOk := fun _ => true,
    subpic := none, reallocOk := true,
    regionUploadOk := fun _ => true, renderOk := false, submitOk := false,
    place := ⟨0, 0, 100, 100⟩ }

/-- Concrete frame with a letterboxed placement (placement strictly inside
the surface), every oracle succeeding. -/
def letterboxEnv : RenderEnv :=
  { makeCurrentOk := true, startFrameOk := true, flipped := false,
    fbW := 100, fbH := 100, numPlanes := 1, planeUploadOk := fun _ => true,
    subpic := none, reallocOk := true,
    regionUploadOk := fun _ => true, renderOk := true, submitOk := true,
    place := ⟨0, 25, 100, 50⟩ }

/-! ## Helper lemmas about the event traces -/

theorem countEv_append (f : Ev → Bool) (a b : List Ev) :
    countEv f (a ++ b) = countEv f a + countEv f b := by
  induction a with
  | nil => simp [countEv]
  | cons x xs ih => simp [countEv, ih]; omega

theorem countEv_zero_of_shape {f : Ev → Bool} :
    ∀ {l : List Ev}, (∀ e ∈ l, f e = false) → countEv f l = 0 := by
  intro l
  induction l with
  | nil => intro _; rfl
  | cons x xs ih =>
    intro h
    simp only [countEv, h x (by simp)]
    simpa using ih fun e he => h e (by simp [he])

/-- Every event of the plane upload loop is an `uploadPlane` event. -/
theorem uploadPlanes_events_shape (ok : Nat → Bool) :
    ∀ (k i : Nat) (e : Ev), e ∈ (uploadPlanes ok i k).2 → ∃ j b, e = .uploadPlane j b := by
  intro k
  induction k with
  | zero => intro i e h; simp [uploadPlanes] at h
  | succ k ih =>
    intro i e h
    cases hok : ok i
    · simp [uploadPlanes, hok] at h
      exact ⟨i, false, h⟩
    · simp [uploadPlanes, hok] at h
      rcases h with h | h
      · exact ⟨i, true, h⟩
      · exact ih (i + 1) e h

/-- When every plane upload succeeds, the loop does not set `failed`. -/
theorem uploadPlanes_all_ok (ok : Nat → Bool) :
    ∀ (k i : Nat), (∀ j, j < i + k → ok j = true) → (uploadPlanes ok i k).1 = false := by
  intro k
  induction k with
  | zero => intro i _; rfl
  | succ k ih =>
    intro i h
    have hok : ok i = true := h i (by omega)
    simp only [uploadPlanes, hok, if_true]
    exact ih (i + 1) fun j hj => h j (by omega)

/-- Every event of the region upload loop is an `uploadRegion` event. -/
theorem uploadRegions_events_shape (flipped : Bool) (place : Place) (ok : Nat → Bool)
    (r : List Region) :
    ∀ (k i : Nat) (tex : List (Option Nat)) (desc : List (Option OverlayDesc)) (e : Ev),
      e ∈ (uploadRegions flipped place ok r i k tex desc).events →
      ∃ j d b, e = .uploadRegion j d b := by
  rcases r with _ | ⟨reg, rest⟩
  · intro k i tex desc e h
    cases k <;> simp [uploadRegions] at h
  · intro k
    induction k with
    | zero => intro i tex desc e h; simp [uploadRegions] at h
    | succ k ih =>
      intro i tex desc e h
      cases hok : ok i
      · simp [uploadRegions, hok] at h
        exact ⟨i, reg.dataId, false, h⟩
      · simp [uploadRegions, hok] at h
        rcases h with h | h
        · exact ⟨i, reg.dataId, true, h⟩
        · exact ih (i + 1) _ _ e h

/-- The code's clear decision of display.c:406-413 agrees with the
spec-side full-coverage test: no clear exactly when the normalized
placement covers the full surface. -/
theorem clearNeeded_iff (place : Place) (fbW fbH : Int) :
    clearNeeded place fbW fbH = true ↔ ¬ coversExactly place fbW fbH := by
  have h : pl_rect2d_eq
      (pl_rect2d_normalize ⟨place.x, place.y, place.x + place.width, place.y + place.height⟩)
      ⟨0, 0, fbW, fbH⟩ = true ↔ coversExactly place fbW fbH := by
    simp only [pl_rect2d_eq, pl_rect2d_normalize, coversExactly, Bool.and_eq_true, beq_iff_eq]
    tauto
  simp only [clearNeeded, Bool.not_eq_true', Bool.eq_false_iff, ne_eq]
  exact not_congr h

/-! ## Claim C1 -/

/-- Claim C1 (the code violates it): in `Open`, when the window is
available, the backend is created and `vlc_placebo_MakeCurrent` succeeds
but `pl_renderer_create` fails, the function returns an error with a trace
containing the successful acquisition and no `vlc_placebo_ReleaseCurrent`,
so the matching release is not performed on this exit path. -/
theorem open_renderer_failure_leaks_current_context :
    (Open ⟨true, true, true, false⟩).1 = false ∧
    (Open ⟨true, true, true, false⟩).2 = [.makeCurrent true] ∧
    Ev.releaseCurrent ∉ (Open ⟨true, true, true, false⟩).2 := by
  decide

/-! ## Claim C2 -/

/-- Claim C2 counterexample: with the LUT loader in state
(resource 7, path "a"), loading path "b" that fails at open replaces the
cached path by "b" (the claim says the cached path is left unchanged), and
loading path "b" that fails at parse replaces the cached resource by the
empty parse result (the claim says the cached resource is left unchanged). -/
theorem load_failure_changes_cached_state :
    (LoadCustomLUT ⟨some 7, some "a"⟩ ⟨false, true, true, true, true, some 9⟩ (some "b")).1
      = ⟨some 7, some "b"⟩ ∧
    (LoadCustomLUT ⟨some 7, some "a"⟩ ⟨true, true, true, true, true, none⟩ (some "b")).1
      = ⟨none, some "b"⟩ ∧
    (some "b" : Option String) ≠ some "a" ∧
    (none : Option Nat) ≠ some 7 := by
  decide

/-- Claim C2 (amended): for both loaders, a load with a new non-empty path
always replaces the cached path with the new path, even on failure; a
failure at open, seek, size, allocation or read leaves the previously
cached resource unchanged; once the read succeeds the cached resource is
replaced by the parse result (so a parse failure empties it); and the read
buffer allocation is balanced by a free on every path. For the shader
loader the statement assumes the open succeeded (an open failure there
reaches a seek on a NULL handle, see claim C10). -/
theorem load_failure_behavior (sys : LoaderState) (env : FileEnv) (fp : String)
    (h1 : fp ≠ "") (h2 : sys.path ≠ some fp) :
    ((LoadCustomLUT sys env (some fp)).1.path = some fp ∧
      (env.openOk = false ∨ env.seekOk = false ∨ env.tellOk = false ∨
          env.allocOk = false ∨ env.readOk = false →
        (LoadCustomLUT sys env (some fp)).1.res = sys.res) ∧
      (env.openOk = true → env.seekOk = true → env.tellOk = true →
          env.allocOk = true → env.readOk = true →
        (LoadCustomLUT sys env (some fp)).1.res = env.parseResult) ∧
      countStep isAllocSuccess (LoadCustomLUT sys env (some fp)).2
        = countStep isFreeBufStep (LoadCustomLUT sys env (some fp)).2) ∧
    (env.openOk = true →
      ((LoadUserShader sys env (some fp)).1.path = some fp ∧
        (env.seekOk = false ∨ env.tellOk = false ∨ env.allocOk = false ∨
            env.readOk = false →
          (LoadUserShader sys env (some fp)).1.res = sys.res) ∧
        (env.seekOk = true → env.tellOk = true → env.allocOk = true → env.readOk = true →
          (LoadUserShader sys env (some fp)).1.res = env.parseResult) ∧
        countStep isAllocSuccess (LoadUserShader sys env (some fp)).2
          = countStep isFreeBufStep (LoadUserShader sys env (some fp)).2)) := by
  rcases env with ⟨o, s, t, a, r, pr⟩
  cases o <;> cases s <;> cases t <;> cases a <;> cases r <;> rcases pr with _ | v <;>
    simp [LoadCustomLUT, LoadUserShader, h1, h2, countStep, isAllocSuccess, isFreeBufStep]

/-- Witness for the amended claim C2 at a concrete input. -/
theorem load_failure_behavior_witness :
    ("b" ≠ "") ∧ ((⟨some 7, some "a"⟩ : LoaderState).path ≠ some "b") ∧
    (LoadCustomLUT ⟨some 7, some "a"⟩ ⟨false, true, true, true, true, some 9⟩ (some "b")).1.path
      = some "b" :=
  ⟨by decide, by decide,
    (load_failure_behavior ⟨some 7, some "a"⟩ ⟨false, true, true, true, true, some 9⟩ "b"
      (by decide) (by decide)).1.1⟩

/-! ## Claim C3 -/

/-- Claim C3 counterexample: an empty (NULL) path clears the cached
resource of either loader but leaves the cached path "a" in place; the
claim says the cached path is cleared as well. -/
theorem empty_path_keeps_cached_path :
    (LoadCustomLUT ⟨some 7, some "a"⟩ ⟨true, true, true, true, true, some 9⟩ none).1
      = ⟨none, some "a"⟩ ∧
    (LoadUserShader ⟨some 7, some "a"⟩ ⟨true, true, true, true, true, some 9⟩ none).1
      = ⟨none, some "a"⟩ ∧
    (some "a" : Option String) ≠ none := by
  decide

/-- Claim C3 (amended): for every state of either resource loader, a load
call with an empty or null path clears the cached resource, releasing the
backend memory (the `clearResource` step is `pl_lut_free` resp.
`pl_mpv_user_shader_destroy`), and performs nothing else — in particular
the cached path is left unchanged, not cleared. -/
theorem empty_path_clears_resource_only (sys : LoaderState) (env : FileEnv)
    (p : Option String) (h : p = none ∨ p = some "") :
    (LoadCustomLUT sys env p).1.res = none ∧
    (LoadCustomLUT sys env p).1.path = sys.path ∧
    (LoadCustomLUT sys env p).2 = [.clearResource] ∧
    (LoadUserShader sys env p).1.res = none ∧
    (LoadUserShader sys env p).1.path = sys.path ∧
    (LoadUserShader sys env p).2 = [.clearResource] := by
  rcases h with h | h <;> subst h <;> simp [LoadCustomLUT, LoadUserShader]

/-- Witness for the amended claim C3 at a concrete input. -/
theorem empty_path_clears_resource_only_witness :
    ((none : Option String) = none ∨ (none : Option String) = some "") ∧
    (LoadCustomLUT ⟨some 7, some "a"⟩ ⟨true, true, true, true, true, some 9⟩ none).1.res
      = none :=
  ⟨Or.inl rfl,
    (empty_path_clears_resource_only ⟨some 7, some "a"⟩
      ⟨true, true, true, true, true, some 9⟩ none (Or.inl rfl)).1⟩

/-! ## Claim C4 -/

/-- Claim C4 (the code violates it): rendering a frame with a subpicture of
two distinct regions (data 100 and 200), all uploads succeeding, composites
two overlays that BOTH carry the first region's rectangle and data id 100:
the upload loop of display.c:372-399 never advances the region pointer, so
the second region's data 200 is never uploaded. -/
theorem overlay_upload_ignores_region_list_tail :
    (PictureRender ⟨0, [], []⟩ twoRegionEnv).targetNum = 2 ∧
    (PictureRender ⟨0, [], []⟩ twoRegionEnv).targetDesc
      = [some ⟨⟨1, 2, 4, 6⟩, 100⟩, some ⟨⟨1, 2, 4, 6⟩, 100⟩] ∧
    Ev.uploadRegion 1 200 true ∉ (PictureRender ⟨0, [], []⟩ twoRegionEnv).events ∧
    Ev.uploadRegion 1 100 true ∈ (PictureRender ⟨0, [], []⟩ twoRegionEnv).events := by
  decide

/-! ## Claim C5 -/

/-- Claim C5 counterexample: for a target encoding with color depth 10 and
sample depth 16 and dither-depth override 8, the merged color depth is 0
(the C `int` division 10/16 truncates to 0), not the exactly proportional
(10/16)·8 = 5: the merged color depH times 16 differs from 10·8. -/
theorem dither_depth_rescale_not_proportional :
    mergeDitherDepth ⟨16, 10, 0⟩ 8 = ⟨8, 0, 0⟩ ∧
    (mergeDitherDepth ⟨16, 10, 0⟩ 8).color_depth * 16 ≠ (10 : Int) * 8 := by
  decide

/-- Claim C5 (amended): for every target bit encoding with color depth c
and sample depth s > 0 and every positive dither-depth override d, the
merged target has sample depth d and color depth (c tdiv s) · d — the
truncating C integer quotient times the new sample depth — and no other
field changes; when s divides c this equals the exactly proportional
rescale (merged color depth times s equals c times d). -/
theorem dither_depth_rescale_truncating (bits : BitEncoding) (d : Int)
    (hd : 0 < d) (hs : 0 < bits.sample_depth) :
    (mergeDitherDepth bits d).sample_depth = d ∧
    (mergeDitherDepth bits d).color_depth
      = bits.color_depth.tdiv bits.sample_depth * d ∧
    (mergeDitherDepth bits d).bit_shift = bits.bit_shift ∧
    (bits.sample_depth ∣ bits.color_depth →
      (mergeDitherDepth bits d).color_depth * bits.sample_depth
        = bits.color_depth * d) := by
  unfold mergeDitherDepth
  rw [if_pos hd]
  refine ⟨rfl, rfl, rfl, ?_⟩
  rintro ⟨k, hk⟩
  simp only [hk]
  rw [Int.mul_tdiv_cancel_left _ (ne_of_gt hs)]
  ring

/-- Witness for the amended claim C5 at a concrete input. -/
theorem dither_depth_rescale_truncating_witness :
    (0 : Int) < 4 ∧ (0 : Int) < (BitEncoding.mk 8 8 0).sample_depth ∧
    (mergeDitherDepth ⟨8, 8, 0⟩ 4).sample_depth = 4 ∧
    (mergeDitherDepth ⟨8, 8, 0⟩ 4).color_depth = (8 : Int).tdiv 8 * 4 :=
  ⟨by decide, by decide,
    (dither_depth_rescale_truncating ⟨8, 8, 0⟩ 4 (by decide) (by decide)).1,
    (dither_depth_rescale_truncating ⟨8, 8, 0⟩ 4 (by decide) (by decide)).2.1⟩

/-! ## Claim C9 -/

/-- Claim C9: for every placement and overlay region geometry (offset
`i_y`, visible height `h`), the overlay descriptor built by
display.c:381-388 has vertical coordinates `place.y - i_y` and
`place.y - (i_y + h)` when the surface delivers flipped frames, and
`place.y + i_y` and `place.y + (i_y + h)` when it does not. -/
theorem overlay_flip_y_coordinates (place : Place) (g : RegionGeom) :
    (overlayRect place true g).y0 = place.y - g.i_y ∧
    (overlayRect place true g).y1 = place.y - (g.i_y + g.h) ∧
    (overlayRect place false g).y0 = place.y + g.i_y ∧
    (overlayRect place false g).y1 = place.y + (g.i_y + g.h) := by
  refine ⟨?_, ?_, ?_, ?_⟩ <;> simp [overlayRect] <;> ring

/-! ## Claim C10 -/

/-- Claim C10: for every non-empty shader path different from the cached
one, when the open fails, `LoadUserShader` still performs the seek and
does so on a NULL file handle (and, the seek then failing, skips the
`fclose` behind the null-guarding error branch), while `LoadCustomLUT`
never seeks on a NULL handle in any run. -/
theorem shader_loader_seeks_null_handle (sys : LoaderState) (env : FileEnv) (fp : String)
    (h1 : fp ≠ "") (h2 : sys.path ≠ some fp) (h3 : env.openOk = false) :
    LoadStep.fseek true ∈ (LoadUserShader sys env (some fp)).2 ∧
    (env.seekOk = false →
      (LoadUserShader sys env (some fp)).2 = [.setPath fp, .fopen false, .fseek true]) ∧
    (∀ (sys2 : LoaderState) (env2 : FileEnv) (fp2 : Option String),
      LoadStep.fseek true ∉ (LoadCustomLUT sys2 env2 fp2).2) := by
  refine ⟨?_, ?_, ?_⟩
  · rcases env with ⟨o, s, t, a, r, pr⟩
    cases o
    · cases s <;> cases t <;> cases a <;> cases r <;> rcases pr with _ | v <;>
        simp [LoadUserShader, h1, h2]
    · exact absurd h3 (by simp)
  · intro hs
    rcases env with ⟨o, s, t, a, r, pr⟩
    cases o
    · cases s
      · simp [LoadUserShader, h1, h2]
      · exact absurd hs (by simp)
    · exact absurd h3 (by simp)
  · intro sys2 env2 fp2
    rcases env2 with ⟨o, s, t, a, r, pr⟩
    rcases fp2 with _ | fp2
    · simp [LoadCustomLUT]
    · by_cases hfp : fp2 = ""
      · simp [LoadCustomLUT, hfp]
      · by_cases hpath : sys2.path = some fp2
        · simp [LoadCustomLUT, hfp, hpath]
        · cases o <;> cases s <;> cases t <;> cases a <;> cases r <;> rcases pr with _ | v <;>
            simp [LoadCustomLUT, hfp, hpath]

/-- Witness for claim C10 at a concrete input. -/
theorem shader_loader_seeks_null_handle_witness :
    ("b" ≠ "") ∧ ((⟨some 7, some "a"⟩ : LoaderState).path ≠ some "b") ∧
    ((⟨false, false, true, true, true, some 9⟩ : FileEnv).openOk = false) ∧
    LoadStep.fseek true
      ∈ (LoadUserShader ⟨some 7, some "a"⟩ ⟨false, false, true, true, true, some 9⟩
          (some "b")).2 :=
  ⟨by decide, by decide, rfl,
    (shader_loader_seeks_null_handle ⟨some 7, some "a"⟩
      ⟨false, false, true, true, true, some 9⟩ "b" (by decide) (by decide) rfl).1⟩

/-! ## Helper lemmas about finishFrame and PictureRender -/

theorem finishFrame_decomp (body : List Ev) (so : Bool) :
    finishFrame body true so
      = body ++ [.clearRed, .submitFrame so]
          ++ (if so then ([] : List Ev) else [.reportSubmitError]) ++ [.releaseCurrent] := by
  cases so <;> simp [finishFrame]

theorem countEv_finishFrame (body : List Ev) (f so : Bool) :
    countEv isSubmitEv (finishFrame body f so) = countEv isSubmitEv body + 1 := by
  cases f <;> cases so <;>
    simp [finishFrame, countEv_append, countEv, isSubmitEv]

theorem countEv_ite_clearBlack (b : Bool) :
    countEv isSubmitEv (if b = true then [Ev.clearBlack] else []) = 0 := by
  cases b <;> rfl

theorem clearBlack_mem_finishFrame (body : List Ev) (f so : Bool) :
    (Ev.clearBlack ∈ finishFrame body f so) ↔ Ev.clearBlack ∈ body := by
  cases f <;> cases so <;> simp [finishFrame]

theorem reallocEv_mem_finishFrame (body : List Ev) (f so : Bool) (n : Nat) (b : Bool) :
    (Ev.reallocOverlays n b ∈ finishFrame body f so) ↔ Ev.reallocOverlays n b ∈ body := by
  cases f <;> cases so <;> simp [finishFrame]

/-- Whenever a PictureRender run ends with `failed = true`, its trace is
the common prologue followed by `finishFrame` of a submission-free body. -/
theorem pictureRender_failed_events (pool : OverlayPool) (env : RenderEnv)
    (h : (PictureRender pool env).failed = true) :
    ∃ B, (PictureRender pool env).events
        = [Ev.makeCurrent true, Ev.startFrame true] ++ finishFrame B true env.submitOk ∧
      countEv isSubmitEv B = 0 := by
  have hP0 : countEv isSubmitEv (uploadPlanes env.planeUploadOk 0 env.numPlanes).2 = 0 :=
    countEv_zero_of_shape fun e he => by
      obtain ⟨j, b, hjb⟩ := uploadPlanes_events_shape _ _ _ e he
      subst hjb; rfl
  have hR0 : ∀ (regs : List Region) (n : Nat) (tex : List (Option Nat))
      (desc : List (Option OverlayDesc)),
      countEv isSubmitEv (uploadRegions env.flipped
        (adjustPlace env.flipped env.fbH env.place)
        env.regionUploadOk regs 0 n tex desc).events = 0 := fun regs n tex desc =>
    countEv_zero_of_shape fun e he => by
      obtain ⟨j, d, b, hjb⟩ := uploadRegions_events_shape _ _ _ _ _ _ _ _ e he
      subst hjb; rfl
  cases hmc : env.makeCurrentOk
  · simp [PictureRender, hmc] at h
  cases hsf : env.startFrameOk
  · simp [PictureRender, hmc, hsf] at h
  cases hp : (uploadPlanes env.planeUploadOk 0 env.numPlanes).1
  case false =>
    cases hsp : env.subpic with
    | none =>
      cases hr : env.renderOk
      · exact ⟨(uploadPlanes env.planeUploadOk 0 env.numPlanes).2
            ++ (if clearNeeded (adjustPlace env.flipped env.fbH env.place) env.fbW env.fbH
                then [Ev.clearBlack] else [])
            ++ [Ev.renderDispatch false],
          by simp [PictureRender, hmc, hsf, hp, hsp, hr],
          by simp [countEv_append, countEv, isSubmitEv, hP0, countEv_ite_clearBlack]⟩
      · simp [PictureRender, hmc, hsf, hp, hsp, hr] at h
    | some regs =>
      by_cases hgt : regs.length > pool.cap
      · cases hra : env.reallocOk
        · exact ⟨(uploadPlanes env.planeUploadOk 0 env.numPlanes).2
              ++ [Ev.reallocOverlays regs.length false],
            by simp [PictureRender, hmc, hsf, hp, hsp, hgt, hra],
            by simp [countEv_append, countEv, isSubmitEv, hP0]⟩
        · cases hr : env.renderOk
          · exact ⟨(uploadPlanes env.planeUploadOk 0 env.numPlanes).2
                ++ [Ev.reallocOverlays regs.length true]
                ++ (uploadRegions env.flipped (adjustPlace env.flipped env.fbH env.place)
                      env.regionUploadOk regs 0 regs.length
                      (growPool pool regs.length).tex (growPool pool regs.length).desc).events
                ++ (if clearNeeded (adjustPlace env.flipped env.fbH env.place) env.fbW env.fbH
                    then [Ev.clearBlack] else [])
                ++ [Ev.renderDispatch false],
              by simp [PictureRender, subpicTail, hmc, hsf, hp, hsp, hgt, hra, hr],
              by simp [countEv_append, countEv, isSubmitEv, hP0, hR0, countEv_ite_clearBlack]⟩
          · simp [PictureRender, subpicTail, hmc, hsf, hp, hsp, hgt, hra, hr] at h
      · cases hr : env.renderOk
        · exact ⟨(uploadPlanes env.planeUploadOk 0 env.numPlanes).2
              ++ (uploadRegions env.flipped (adjustPlace env.flipped env.fbH env.place)
                    env.regionUploadOk regs 0 regs.length pool.tex pool.desc).events
              ++ (if clearNeeded (adjustPlace env.flipped env.fbH env.place) env.fbW env.fbH
                  then [Ev.clearBlack] else [])
              ++ [Ev.renderDispatch false],
            by simp [PictureRender, subpicTail, hmc, hsf, hp, hsp, hgt, hr],
            by simp [countEv_append, countEv, isSubmitEv, hP0, hR0, countEv_ite_clearBlack]⟩
        · simp [PictureRender, subpicTail, hmc, hsf, hp, hsp, hgt, hr] at h
  case true =>
    exact ⟨(uploadPlanes env.planeUploadOk 0 env.numPlanes).2,
      by simp [PictureRender, hmc, hsf, hp],
      hP0⟩

/-- The resulting overlay pool does not depend on the submission outcome. -/
theorem pictureRender_pool_submit_irrel (pool : OverlayPool) (env : RenderEnv) (b : Bool) :
    (PictureRender pool { env with submitOk := b }).pool = (PictureRender pool env).pool := by
  cases hmc : env.makeCurrentOk <;> cases hsf : env.startFrameOk <;>
    cases hp : (uploadPlanes env.planeUploadOk 0 env.numPlanes).1 <;>
    cases hsp : env.subpic <;>
    simp [PictureRender, subpicTail, hmc, hsf, hp, hsp] <;>
    split_ifs <;> simp [subpicTail]

/-! ## Claim C7 -/

/-- Claim C7: whenever a frame ends in the failed state (plane upload
failure, overlay storage allocation failure, or render dispatch failure),
the trace ends with the fixed red clear immediately followed by the
submission attempt (and the release), the submission failure report
appears exactly when the submission fails, exactly one submission is
attempted (no retry), and the resulting overlay pool — the pipeline
state — does not depend on the submission outcome. -/
theorem failed_frame_red_clear_and_submit (pool : OverlayPool) (env : RenderEnv)
    (h : (PictureRender pool env).failed = true) :
    (∃ body, (PictureRender pool env).events
        = body ++ [.clearRed, .submitFrame env.submitOk]
            ++ (if env.submitOk then ([] : List Ev) else [.reportSubmitError])
            ++ [.releaseCurrent] ∧
      countEv isSubmitEv body = 0) ∧
    countEv isSubmitEv (PictureRender pool env).events = 1 ∧
    ∀ b, (PictureRender pool { env with submitOk := b }).pool
          = (PictureRender pool env).pool := by
  obtain ⟨B, hB, hB0⟩ := pictureRender_failed_events pool env h
  refine ⟨⟨[Ev.makeCurrent true, Ev.startFrame true] ++ B, ?_, ?_⟩, ?_,
    fun b => pictureRender_pool_submit_irrel pool env b⟩
  · rw [hB, finishFrame_decomp]
    simp
  · simp [countEv_append, countEv, isSubmitEv, hB0]
  · rw [hB, countEv_append, countEv_finishFrame, hB0]
    rfl

/-- Witness for claim C7 at a concrete input (failing render dispatch). -/
theorem failed_frame_red_clear_and_submit_witness :
    (PictureRender ⟨0, [], []⟩ dispatchFailEnv).failed = true ∧
    countEv isSubmitEv (PictureRender ⟨0, [], []⟩ dispatchFailEnv).events = 1 :=
  ⟨by decide, (failed_frame_red_clear_and_submit ⟨0, [], []⟩ dispatchFailEnv (by decide)).2.1⟩

/-! ## Claim C6 -/

/-- Claim C6: for every frame that reaches the compositing stage (context
acquired, swapchain frame started, all plane uploads succeeding, no
overlay allocation failure), the target is cleared to transparent black
if and only if the min/max-normalized placement rectangle does not
exactly cover the full target surface. -/
theorem clear_iff_not_full_coverage (pool : OverlayPool) (env : RenderEnv)
    (h1 : env.makeCurrentOk = true) (h2 : env.startFrameOk = true)
    (h3 : ∀ j, j < env.numPlanes → env.planeUploadOk j = true)
    (h4 : subpicNoOOM env pool = true) :
    (Ev.clearBlack ∈ (PictureRender pool env).events ↔
      ¬ coversExactly (adjustPlace env.flipped env.fbH env.place) env.fbW env.fbH) := by
  have hp : (uploadPlanes env.planeUploadOk 0 env.numPlanes).1 = false :=
    uploadPlanes_all_ok _ _ 0 fun j hj => h3 j (by omega)
  have hPmem : Ev.clearBlack ∉ (uploadPlanes env.planeUploadOk 0 env.numPlanes).2 := by
    intro hmem
    obtain ⟨j, b, hjb⟩ := uploadPlanes_events_shape _ _ _ _ hmem
    simp at hjb
  have hRmem : ∀ (regs : List Region) (n : Nat) (tex : List (Option Nat))
      (desc : List (Option OverlayDesc)),
      Ev.clearBlack ∉ (uploadRegions env.flipped
        (adjustPlace env.flipped env.fbH env.place)
        env.regionUploadOk regs 0 n tex desc).events := by
    intro regs n tex desc hmem
    obtain ⟨j, d, b, hjb⟩ := uploadRegions_events_shape _ _ _ _ _ _ _ _ _ hmem
    simp at hjb
  have hiff := clearNeeded_iff (adjustPlace env.flipped env.fbH env.place) env.fbW env.fbH
  by_cases hcl : clearNeeded (adjustPlace env.flipped env.fbH env.place) env.fbW env.fbH = true
  · have hcov := hiff.mp hcl
    cases hsp : env.subpic with
    | none =>
      simp [PictureRender, h1, h2, hp, hsp, hcl, clearBlack_mem_finishFrame, hPmem]
      exact hcov
    | some regs =>
      by_cases hgt : regs.length > pool.cap
      · have hra : env.reallocOk = true := by
          have h4' := h4
          simp [subpicNoOOM, hsp] at h4'
          rcases h4' with h4' | h4'
          · omega
          · exact h4'
        simp [PictureRender, subpicTail, h1, h2, hp, hsp, hgt, hra, hcl,
          clearBlack_mem_finishFrame, hPmem, hRmem]
        exact hcov
      · simp [PictureRender, subpicTail, h1, h2, hp, hsp, hgt, hcl,
          clearBlack_mem_finishFrame, hPmem, hRmem]
        exact hcov
  · have hcov : coversExactly (adjustPlace env.flipped env.fbH env.place) env.fbW env.fbH := by
      by_contra hc
      exact hcl (hiff.mpr hc)
    cases hsp : env.subpic with
    | none =>
      simp [PictureRender, h1, h2, hp, hsp, hcl, clearBlack_mem_finishFrame, hPmem]
      exact hcov
    | some regs =>
      by_cases hgt : regs.length > pool.cap
      · have hra : env.reallocOk = true := by
          have h4' := h4
          simp [subpicNoOOM, hsp] at h4'
          rcases h4' with h4' | h4'
          · omega
          · exact h4'
        simp [PictureRender, subpicTail, h1, h2, hp, hsp, hgt, hra, hcl,
          clearBlack_mem_finishFrame, hPmem, hRmem]
        exact hcov
      · simp [PictureRender, subpicTail, h1, h2, hp, hsp, hgt, hcl,
          clearBlack_mem_finishFrame, hPmem, hRmem]
        exact hcov

/-- Witness for claim C6 at a concrete input (letterboxed placement). -/
theorem clear_iff_not_full_coverage_witness :
    letterboxEnv.makeCurrentOk = true ∧ letterboxEnv.startFrameOk = true ∧
    (∀ j, j < letterboxEnv.numPlanes → letterboxEnv.planeUploadOk j = true) ∧
    subpicNoOOM letterboxEnv ⟨0, [], []⟩ = true ∧
    (Ev.clearBlack ∈ (PictureRender ⟨0, [], []⟩ letterboxEnv).events ↔
      ¬ coversExactly (adjustPlace letterboxEnv.flipped letterboxEnv.fbH letterboxEnv.place)
        letterboxEnv.fbW letterboxEnv.fbH) :=
  ⟨rfl, rfl, by decide, rfl,
    clear_iff_not_full_coverage ⟨0, [], []⟩ letterboxEnv rfl rfl (by decide) rfl⟩

/-! ## Claim C8 -/

/-- Claim C8: overlay backing storage (`num_overlays`) never shrinks when
reallocation succeeds; a reallocation happens only when the requested
region count exceeds the current capacity; newly added texture slots of
the grown storage are NULL-initialized; and the concrete frame sequence
requesting 3, then 1, then 5 regions leaves the storage sized 5. -/
theorem overlay_pool_growth :
    (∀ (pool : OverlayPool) (env : RenderEnv), env.reallocOk = true →
      pool.cap ≤ (PictureRender pool env).pool.cap) ∧
    (∀ (pool : OverlayPool) (env : RenderEnv) (n : Nat) (b : Bool),
      Ev.reallocOverlays n b ∈ (PictureRender pool env).events → pool.cap < n) ∧
    (∀ (pool : OverlayPool) (n j : Nat), pool.tex.length = pool.cap →
      pool.cap ≤ j → j < n → (growPool pool n).tex[j]? = some none) ∧
    ([3, 1, 5].foldl (fun p k => (PictureRender p (kRegionEnv k)).pool)
        ⟨0, [], []⟩).cap = 5 := by
  refine ⟨?_, ?_, ?_, by decide⟩
  · intro pool env hra
    cases hmc : env.makeCurrentOk <;> cases hsf : env.startFrameOk <;>
      cases hp : (uploadPlanes env.planeUploadOk 0 env.numPlanes).1 <;>
      cases hsp : env.subpic
    all_goals
      try simp [PictureRender, subpicTail, hmc, hsf, hp, hsp, hra, growPool]
    all_goals
      rename_i regs
      by_cases hgt : regs.length > pool.cap <;>
        simp [PictureRender, subpicTail, hmc, hsf, hp, hsp, hra, hgt, growPool] <;>
        omega
  · intro pool env n b hm
    have hPre : ∀ e ∈ (uploadPlanes env.planeUploadOk 0 env.numPlanes).2,
        e ≠ Ev.reallocOverlays n b := by
      intro e he
      obtain ⟨j, c, hjc⟩ := uploadPlanes_events_shape _ _ _ e he
      subst hjc; simp
    have hRre : ∀ (regs : List Region) (m : Nat) (tex : List (Option Nat))
        (desc : List (Option OverlayDesc)),
        ∀ e ∈ (uploadRegions env.flipped (adjustPlace env.flipped env.fbH env.place)
          env.regionUploadOk regs 0 m tex desc).events, e ≠ Ev.reallocOverlays n b := by
      intro regs m tex desc e he
      obtain ⟨j, d, c, hjc⟩ := uploadRegions_events_shape _ _ _ _ _ _ _ _ e he
      subst hjc; simp
    cases hmc : env.makeCurrentOk
    · simp [PictureRender, hmc] at hm
    cases hsf : env.startFrameOk
    · simp [PictureRender, hmc, hsf] at hm
    cases hp : (uploadPlanes env.planeUploadOk 0 env.numPlanes).1
    case true =>
      simp [PictureRender, hmc, hsf, hp, reallocEv_mem_finishFrame] at hm
      exact absurd rfl (hPre _ hm)
    case false =>
      cases hsp : env.subpic with
      | none =>
        simp [PictureRender, hmc, hsf, hp, hsp, reallocEv_mem_finishFrame] at hm
        exact absurd rfl (hPre _ hm)
      | some regs =>
        by_cases hgt : regs.length > pool.cap
        · cases hra : env.reallocOk
          · simp [PictureRender, hmc, hsf, hp, hsp, hgt, hra,
              reallocEv_mem_finishFrame] at hm
            rcases hm with hm | ⟨h1, h2⟩
            · exact absurd rfl (hPre _ hm)
            · omega
          · simp [PictureRender, subpicTail, hmc, hsf, hp, hsp, hgt, hra,
              reallocEv_mem_finishFrame] at hm
            rcases hm with hm | ⟨h1, h2⟩ | hm
            · exact absurd rfl (hPre _ hm)
            · omega
            · exact absurd rfl (hRre _ _ _ _ _ hm)
        · simp [PictureRender, subpicTail, hmc, hsf, hp, hsp, hgt,
            reallocEv_mem_finishFrame] at hm
          rcases hm with hm | hm
          · exact absurd rfl (hPre _ hm)
          · exact absurd rfl (hRre _ _ _ _ _ hm)
  · intro pool n j hlen hj hjn
    simp only [growPool]
    rw [List.getElem?_append_right (by omega)]
    rw [hlen]
    simp [List.getElem?_replicate]
    omega

/-- Witness for claim C8 at a concrete input. -/
theorem overlay_pool_growth_witness :
    (kRegionEnv 3).reallocOk = true ∧
    (⟨0, [], []⟩ : OverlayPool).cap ≤ (PictureRender ⟨0, [], []⟩ (kRegionEnv 3)).pool.cap :=
  ⟨rfl, overlay_pool_growth.1 ⟨0, [], []⟩ (kRegionEnv 3) rfl⟩

end VlcPlacebo
